import Mathlib

/-!
Verification of the GutCheck color-asset generation scripts.

The repository holds two near-duplicate Python scripts:
* `GutCheck/GutCheck.xcodeproj/generate_color_assets.py`
* `GutCheck/create_colors.py`

Both map a fixed table of named colors (light/dark hex pairs) to Xcode
`Contents.json` color assets.  This file gives a shallow embedding of the
data and operations of those scripts and proves properties about them.

Modelling conventions:
* Python strings are modelled as `List Char` (with `String` wrappers at the
  interfaces); Python's `str.lstrip`/slicing are modelled directly.
* Python's `int(s, 16)` is modelled by `pyIntHex`, covering the grammar of
  CPython for base-16 string conversion restricted to ASCII: optional
  surrounding whitespace, an optional sign, an optional `0x`/`0X` prefix and
  hexadecimal digits separated by single underscores.  (CPython additionally
  accepts non-ASCII decimal digits and Unicode whitespace; every theorem
  below quantifies only over inputs where the two semantics agree.)
* The Python float `n / 255.0` is modelled by the exact rational value
  `n / 255`, carried as an unreduced numerator/denominator pair `PyFloat`.
  This is faithful for the observable outputs: the only observation made of
  these floats is `f"{x:.3f}"`, and for every `n` with `0 ≤ n ≤ 255` the
  three-decimal rounding of the double nearest to `n / 255` equals the
  three-decimal rounding of the rational `n / 255` itself (the rational is
  never closer than `1/102000` to a rounding boundary, because a tie would
  require `51 ∣ n` and then `2000 * n / 255 = 400 * (n / 51)` is even,
  while the double is within `2⁻⁵³` of it).
* The filesystem is modelled by `FS`: a set of directories, a map from
  paths to file contents, and an event log recording every mkdir/write.
  The OS-level primitives are assumed to succeed (no permission errors,
  no ordinary file occupying a directory path): `Path.mkdir(exist_ok=True)`
  is a no-op when the directory exists, `open(p, "w")` replaces the file.
* `print(x)` is modelled by appending the argument string to an output list.
* An uncaught Python exception is modelled by `Option`: a run that raises
  returns `none`.
-/

namespace GutCheck

/-! ## Exact values of the Python floats produced by `int(..) / 255.0` -/

/-- The exact rational value of a Python float, as an unreduced
numerator/denominator pair.  `den` is always positive by construction. -/
structure PyFloat where
  num : Int
  den : Nat
deriving DecidableEq, Repr

/-- The mathematical value of a `PyFloat`. -/
def PyFloat.toRat (x : PyFloat) : ℚ := (x.num : ℚ) / (x.den : ℚ)

/-- `n / 255.0` in Python, as its exact rational value. -/
def div255 (n : Int) : PyFloat := ⟨n, 255⟩

/-! ## Characters and Python `int(s, 16)` -/

/-- ASCII whitespace stripped by Python's `int` conversion. -/
def isPySpace (c : Char) : Bool :=
  c = ' ' ∨ c = '\t' ∨ c = '\n' ∨ c = '\x0b' ∨ c = '\x0c' ∨ c = '\r'

/-- The base-16 digit table of Python's `int`. -/
def hexDigitChars : List (Char × Nat) :=
  [('0', 0), ('1', 1), ('2', 2), ('3', 3), ('4', 4),
   ('5', 5), ('6', 6), ('7', 7), ('8', 8), ('9', 9),
   ('a', 10), ('b', 11), ('c', 12), ('d', 13), ('e', 14), ('f', 15),
   ('A', 10), ('B', 11), ('C', 12), ('D', 13), ('E', 14), ('F', 15)]

/-- The value of a single hexadecimal digit, `none` for any other
character. -/
def hexDigitVal (c : Char) : Option Nat :=
  (hexDigitChars.find? (fun p => p.1 == c)).map (fun p => p.2)

/-- Hexadecimal digits after the first one, allowing a single `_` between
digits (CPython's numeric-literal underscore rule). -/
def parseHexCore : List Char → Nat → Option Nat
  | [], acc => some acc
  | c :: rest, acc =>
    if c = '_' then
      match rest with
      | [] => none
      | c2 :: rest2 =>
        match hexDigitVal c2 with
        | some v => parseHexCore rest2 (acc * 16 + v)
        | none => none
    else
      match hexDigitVal c with
      | some v => parseHexCore rest (acc * 16 + v)
      | none => none

/-- A nonempty run of hexadecimal digits with single underscores between
digits; underscores may not lead or trail. -/
def parseHexDigits (cs : List Char) : Option Nat :=
  match cs with
  | [] => none
  | c :: rest =>
    match hexDigitVal c with
    | some v => parseHexCore rest v
    | none => none

/-- The digit part of `int(s, 16)` after the optional sign: an optional
`0x`/`0X` prefix (which may be followed by one underscore) and then the
digits. -/
def pyIntHexDigits (cs : List Char) : Option Nat :=
  match cs with
  | c0 :: c1 :: rest =>
    if c0 = '0' ∧ (c1 = 'x' ∨ c1 = 'X') then
      if rest.head? = some '_' then parseHexDigits rest.tail
      else parseHexDigits rest
    else parseHexDigits cs
  | _ => parseHexDigits cs

/-- Python `str.strip()` over ASCII whitespace, as used by `int(s, 16)`. -/
def pyStrip (cs : List Char) : List Char :=
  ((cs.dropWhile isPySpace).reverse.dropWhile isPySpace).reverse

/-- Python's `int(s, 16)`: `none` models a raised `ValueError`. -/
def pyIntHex (cs : List Char) : Option Int :=
  match pyStrip cs with
  | [] => none
  | c :: rest =>
    if c = '+' then (pyIntHexDigits rest).map Int.ofNat
    else if c = '-' then (pyIntHexDigits rest).map (fun n => -(n : Int))
    else (pyIntHexDigits (c :: rest)).map Int.ofNat

/-! ## `hex_to_rgb` -/

/-- Python `h.lstrip('#')`. -/
def lstripHash (cs : List Char) : List Char := cs.dropWhile (fun c => c = '#')

/-- Python slice `h[i:j]` for `0 ≤ i ≤ j`. -/
def pySlice (cs : List Char) (i j : Nat) : List Char := (cs.take j).drop i

/-- `hex_to_rgb` of both scripts on the underlying character list:
strip leading `'#'`, parse `h[0:2]`, `h[2:4]`, `h[4:6]` as base-16
integers, divide each by `255.0`.  (`generate_color_assets.py` names the
three results `r`, `g`, `b`; `create_colors.py` builds the same tuple with
a generator over `(0, 2, 4)`; the two are the same function.)  A `none`
result models a raised `ValueError`. -/
def hexToRgbChars (s : List Char) : Option (PyFloat × PyFloat × PyFloat) := do
  let h := lstripHash s
  let r ← pyIntHex (pySlice h 0 2)
  let g ← pyIntHex (pySlice h 2 4)
  let b ← pyIntHex (pySlice h 4 6)
  pure (div255 r, div255 g, div255 b)

/-- `hex_to_rgb` on a string. -/
def hex_to_rgb (s : String) : Option (PyFloat × PyFloat × PyFloat) :=
  hexToRgbChars s.data

/-! ## `f"{x:.3f}"` -/

/-- Round `n / d` (`d > 0`) to the nearest integer, ties to even — the
rounding used by Python's fixed-point float formatting. -/
def roundHalfEven (n d : Int) : Int :=
  let q := Int.fdiv n d
  let r := n - q * d
  if 2 * r < d then q
  else if d < 2 * r then q + 1
  else if q % 2 = 0 then q else q + 1

/-- A natural number rendered as exactly three decimal digits. -/
def pad3 (n : Nat) : String :=
  if n < 10 then "00" ++ toString n
  else if n < 100 then "0" ++ toString n
  else toString n

/-- Python `f"{x:.3f}"` on the exact value of the float `x` (see the
header for why formatting the exact rational agrees with formatting the
double for every value these scripts produce). -/
def fmt3 (x : PyFloat) : String :=
  let m := roundHalfEven (x.num * 1000) (x.den : Int)
  let sgn := if m < 0 then "-" else ""
  let a := m.natAbs
  sgn ++ toString (a / 1000) ++ "." ++ pad3 (a % 1000)

/-! ## JSON values

Python dicts preserve insertion order, so an object is a list of
key/value pairs in insertion order; `json.dump` output is determined by
this structure, so equal structures give equal file contents. -/

inductive Json where
  | str : String → Json
  | num : Int → Json
  | arr : List Json → Json
  | obj : List (String × Json) → Json

/-! ## The color tables -/

/-- `COLORS` of `generate_color_assets.py`, in source order:
`(name, light_hex, dark_hex)`. -/
def COLORS_gen : List (String × String × String) :=
  [("PrimaryColor", "#0891B2", "#06B6D4"),
   ("AccentColor", "#F97316", "#FB923C"),
   ("SecondaryColor", "#8B5CF6", "#A78BFA"),
   ("BackgroundColor", "#FFFFFF", "#0F172A"),
   ("CardBackground", "#F8FAFC", "#1E293B"),
   ("SurfaceColor", "#F1F5F9", "#334155"),
   ("PrimaryText", "#0F172A", "#F8FAFC"),
   ("SecondaryText", "#475569", "#CBD5E1"),
   ("TertiaryText", "#94A3B8", "#64748B"),
   ("SuccessColor", "#10B981", "#34D399"),
   ("WarningColor", "#F59E0B", "#FBBF24"),
   ("ErrorColor", "#EF4444", "#F87171"),
   ("InfoColor", "#3B82F6", "#60A5FA"),
   ("BorderColor", "#E2E8F0", "#334155"),
   ("DisabledColor", "#CBD5E1", "#475569"),
   ("InputBackground", "#F8FAFC", "#1E293B"),
   ("SymptomColor", "#EC4899", "#F472B6")]

/-- `COLORS` of `create_colors.py`, in source order. -/
def COLORS_cc : List (String × String × String) :=
  [("GutCheckPrimary", "#0891B2", "#06B6D4"),
   ("GutCheckAccent", "#F97316", "#FB923C"),
   ("GutCheckSecondary", "#8B5CF6", "#A78BFA"),
   ("GutCheckBackground", "#FFFFFF", "#0F172A"),
   ("GutCheckCardBackground", "#F8FAFC", "#1E293B"),
   ("GutCheckSurface", "#F1F5F9", "#334155"),
   ("GutCheckPrimaryText", "#0F172A", "#F8FAFC"),
   ("GutCheckSecondaryText", "#475569", "#CBD5E1"),
   ("GutCheckTertiaryText", "#94A3B8", "#64748B"),
   ("GutCheckSuccess", "#10B981", "#34D399"),
   ("GutCheckWarning", "#F59E0B", "#FBBF24"),
   ("GutCheckError", "#EF4444", "#F87171"),
   ("GutCheckInfo", "#3B82F6", "#60A5FA"),
   ("GutCheckBorder", "#E2E8F0", "#334155"),
   ("GutCheckDisabled", "#CBD5E1", "#475569"),
   ("GutCheckInputBackground", "#F8FAFC", "#1E293B"),
   ("GutCheckSymptom", "#EC4899", "#F472B6")]

/-! ## The JSON builders of the two scripts -/

/-- `create_color_json` of `generate_color_assets.py`.  `none` models a
`ValueError` propagating out of `hex_to_rgb`. -/
def create_color_json (light_hex dark_hex : String) : Option Json := do
  let (light_r, light_g, light_b) ← hex_to_rgb light_hex
  let (dark_r, dark_g, dark_b) ← hex_to_rgb dark_hex
  pure (Json.obj [
    ("colors", Json.arr [
      Json.obj [
        ("color", Json.obj [
          ("color-space", Json.str "srgb"),
          ("components", Json.obj [
            ("alpha", Json.str "1.000"),
            ("blue", Json.str (fmt3 light_b)),
            ("green", Json.str (fmt3 light_g)),
            ("red", Json.str (fmt3 light_r))])]),
        ("idiom", Json.str "universal")],
      Json.obj [
        ("appearances", Json.arr [
          Json.obj [
            ("appearance", Json.str "luminosity"),
            ("value", Json.str "dark")]]),
        ("color", Json.obj [
          ("color-space", Json.str "srgb"),
          ("components", Json.obj [
            ("alpha", Json.str "1.000"),
            ("blue", Json.str (fmt3 dark_b)),
            ("green", Json.str (fmt3 dark_g)),
            ("red", Json.str (fmt3 dark_r))])]),
        ("idiom", Json.str "universal")]]),
    ("info", Json.obj [
      ("author", Json.str "xcode"),
      ("version", Json.num 1)])])

/-- The `data` dictionary built in the loop body of `create_colors.py`
(there `lr, lg, lb = hex_to_rgb(light)` and `dr, dg, db =
hex_to_rgb(dark)` precede the dict literal). -/
def createColorsData (light dark : String) : Option Json := do
  let (lr, lg, lb) ← hex_to_rgb light
  let (dr, dg, db) ← hex_to_rgb dark
  pure (Json.obj [
    ("colors", Json.arr [
      Json.obj [
        ("color", Json.obj [
          ("color-space", Json.str "srgb"),
          ("components", Json.obj [
            ("alpha", Json.str "1.000"),
            ("blue", Json.str (fmt3 lb)),
            ("green", Json.str (fmt3 lg)),
            ("red", Json.str (fmt3 lr))])]),
        ("idiom", Json.str "universal")],
      Json.obj [
        ("appearances", Json.arr [
          Json.obj [
            ("appearance", Json.str "luminosity"),
            ("value", Json.str "dark")]]),
        ("color", Json.obj [
          ("color-space", Json.str "srgb"),
          ("components", Json.obj [
            ("alpha", Json.str "1.000"),
            ("blue", Json.str (fmt3 db)),
            ("green", Json.str (fmt3 dg)),
            ("red", Json.str (fmt3 dr))])]),
        ("idiom", Json.str "universal")]]),
    ("info", Json.obj [
      ("author", Json.str "xcode"),
      ("version", Json.num 1)])])

/-! ## The filesystem model and the two script runs -/

/-- A filesystem path, as a list of components. -/
abbrev Path := List String

/-- A logged filesystem mutation. -/
inductive FsEvent where
  | mkdir : Path → FsEvent
  | write : Path → FsEvent
deriving DecidableEq, Repr

/-- The filesystem: existing directories, file contents, and a log of
every mutation performed. -/
structure FS where
  dirs : List Path
  files : List (Path × Json)
  log : List FsEvent

/-- `Path.exists()`: the path is a known directory or file. -/
def FS.pathExists (fs : FS) (p : Path) : Bool :=
  fs.dirs.contains p || fs.files.any (fun f => f.1 == p)

/-- `Path.mkdir(exist_ok=True)`: create the directory unless it already
exists. -/
def FS.mkdirEO (fs : FS) (p : Path) : FS :=
  { fs with
    dirs := if fs.pathExists p then fs.dirs else p :: fs.dirs
    log := fs.log ++ [FsEvent.mkdir p] }

/-- `open(p, "w")` followed by `json.dump(j, f)`: create or replace the
file at `p` with content `j`. -/
def FS.writeFile (fs : FS) (p : Path) (j : Json) : FS :=
  { fs with
    files := (p, j) :: fs.files.filter (fun f => ¬ f.1 == p)
    log := fs.log ++ [FsEvent.write p] }

@[simp] theorem FS.mkdirEO_log (fs : FS) (p : Path) :
    (fs.mkdirEO p).log = fs.log ++ [FsEvent.mkdir p] := rfl

@[simp] theorem FS.writeFile_log (fs : FS) (p : Path) (j : Json) :
    (fs.writeFile p j).log = fs.log ++ [FsEvent.write p] := rfl

/-- `Path("GutCheck/Assets.xcassets")`. -/
def assetsPath : Path := ["GutCheck", "Assets.xcassets"]

/-- `str(assets_path)` as printed in messages. -/
def assetsPathStr : String := "GutCheck/Assets.xcassets"

/-- `assets_path / f"{name}.colorset"`. -/
def colorsetDir (name : String) : Path := assetsPath ++ [name ++ ".colorset"]

/-- `colorset_path / "Contents.json"`. -/
def contentsFile (name : String) : Path := colorsetDir name ++ ["Contents.json"]

/-- `"=" * 50`. -/
def sep50 : String := String.mk (List.replicate 50 '=')

/-- The outcome of a completed script run: the process exit status, the
final filesystem, and every line printed (one list entry per `print`
call, holding the exact argument string). -/
structure RunResult where
  exitCode : Nat
  fs : FS
  output : List String

/-- The per-color loop of `main` in `generate_color_assets.py`: print a
progress line, create the colorset directory, build the JSON, write
`Contents.json`, increment the counter.  `none` models an uncaught
exception. -/
def genLoop : List (String × String × String) → FS → List String → Nat →
    Option (FS × List String × Nat)
  | [], fs, out, count => some (fs, out, count)
  | (name, light, dark) :: rest, fs, out, count =>
    let out := out ++ ["   Creating " ++ name ++ "..."]
    let fs := fs.mkdirEO (colorsetDir name)
    match create_color_json light dark with
    | some j => genLoop rest (fs.writeFile (contentsFile name) j) out (count + 1)
    | none => none

/-- `exit(main())` of `generate_color_assets.py`. -/
def runGenerate (fs : FS) : Option RunResult :=
  let out := ["🎨 GutCheck Color Assets Generator (Python)", sep50, ""]
  if fs.pathExists assetsPath then
    let out := out ++ ["✅ Found Assets.xcassets at: " ++ assetsPathStr, ""]
    match genLoop COLORS_gen fs out 0 with
    | some (fs, out, count) =>
      some { exitCode := 0
             fs := fs
             output := out ++
               ["", sep50,
                "✅ Successfully created " ++ toString count ++ " color assets!",
                "", "📋 Next Steps:",
                "1. Open your Xcode project",
                "2. The colors should now appear in Assets.xcassets",
                "3. If Xcode is already open:",
                "   - Close and reopen the project, OR",
                "   - Clean build folder (Cmd+Shift+K)",
                "4. Build and run your app",
                "",
                "🎨 Colors created with Light/Dark mode support:"] ++
               COLORS_gen.map
                 (fun e => "   • " ++ e.1 ++ ": " ++ e.2.1 ++ " / " ++ e.2.2) ++
               [""] }
    | none => none
  else
    some { exitCode := 1
           fs := fs
           output := out ++
             ["❌ Error: " ++ assetsPathStr ++ " not found!",
              "Please run this script from your project root directory."] }

/-- The per-color loop of `create_colors.py`: print a progress line,
create the colorset directory, build `data`, write `Contents.json`. -/
def ccLoop : List (String × String × String) → FS → List String →
    Option (FS × List String)
  | [], fs, out => some (fs, out)
  | (name, light, dark) :: rest, fs, out =>
    let out := out ++ ["   ✓ " ++ name]
    let fs := fs.mkdirEO (colorsetDir name)
    match createColorsData light dark with
    | some j => ccLoop rest (fs.writeFile (contentsFile name) j) out
    | none => none

/-- The top-level script `create_colors.py`. -/
def runCreateColors (fs : FS) : Option RunResult :=
  if fs.pathExists assetsPath then
    match ccLoop COLORS_cc fs ["🎨 Creating GutCheck color assets..."] with
    | some (fs, out) =>
      some { exitCode := 0
             fs := fs
             output := out ++
               ["\n✅ Created " ++ toString COLORS_cc.length ++ " color assets!",
                "\n📋 Next steps:",
                "1. Close Xcode if it's open",
                "2. Reopen Xcode",
                "3. Clean Build (Cmd+Shift+K)",
                "4. Build & Run"] }
    | none => none
  else
    some { exitCode := 1
           fs := fs
           output := ["❌ Error: " ++ assetsPathStr ++ " not found!"] }

/-- A string of the form `"#RRGGBB"`: a `'#'` followed by exactly six
hexadecimal digits. -/
def validHexStr (s : String) : Bool :=
  match s.data with
  | '#' :: rest => rest.length == 6 && rest.all (fun c => (hexDigitVal c).isSome)
  | _ => false

/-! ## Helper lemmas about the hex parser -/

theorem hexDigitVal_facts {c : Char} {v : Nat} (h : hexDigitVal c = some v) :
    v ≤ 15 ∧ c ≠ '#' ∧ c ≠ '+' ∧ c ≠ '-' ∧ c ≠ '_' ∧ c ≠ 'x' ∧ c ≠ 'X' ∧
      isPySpace c = false := by
  have key : ∀ q ∈ hexDigitChars,
      q.2 ≤ 15 ∧ q.1 ≠ '#' ∧ q.1 ≠ '+' ∧ q.1 ≠ '-' ∧ q.1 ≠ '_' ∧
        q.1 ≠ 'x' ∧ q.1 ≠ 'X' ∧ isPySpace q.1 = false := by decide
  unfold hexDigitVal at h
  rw [Option.map_eq_some'] at h
  obtain ⟨p, hfind, hv⟩ := h
  have hmem : p ∈ hexDigitChars := List.mem_of_find?_eq_some hfind
  have hc : p.1 = c := by
    have := List.find?_some hfind
    exact beq_iff_eq.mp this
  subst hv
  rw [← hc]
  exact key p hmem

/-- `int(s, 16)` on a two-character slice of hexadecimal digits. -/
theorem pyIntHex_pair {a b : Char} {va vb : Nat}
    (ha : hexDigitVal a = some va) (hb : hexDigitVal b = some vb) :
    pyIntHex [a, b] = some ((va * 16 + vb : Nat) : Int) := by
  obtain ⟨-, -, ha3, ha4, -, -, -, ha8⟩ := hexDigitVal_facts ha
  obtain ⟨-, -, -, -, hb5, hb6, hb7, hb8⟩ := hexDigitVal_facts hb
  have hstrip : pyStrip [a, b] = [a, b] := by
    simp [pyStrip, List.dropWhile, ha8, hb8]
  simp [pyIntHex, hstrip, pyIntHexDigits, parseHexDigits, parseHexCore,
    ha, hb, ha3, ha4, hb5, hb6, hb7]

/-- `int(s, 16)` on a single hexadecimal digit. -/
theorem pyIntHex_single {a : Char} {va : Nat} (ha : hexDigitVal a = some va) :
    pyIntHex [a] = some (va : Int) := by
  obtain ⟨-, -, ha3, ha4, -, -, -, ha8⟩ := hexDigitVal_facts ha
  have hstrip : pyStrip [a] = [a] := by
    simp [pyStrip, List.dropWhile, ha8]
  simp [pyIntHex, hstrip, pyIntHexDigits, parseHexDigits, parseHexCore,
    ha, ha3, ha4]

/-- The value of `div255` lies in `[0, 1]` whenever the numerator is at
most `255`. -/
theorem div255_toRat_mem {n : Nat} (h : n ≤ 255) :
    0 ≤ (div255 (n : Int)).toRat ∧ (div255 (n : Int)).toRat ≤ 1 := by
  constructor
  · unfold div255 PyFloat.toRat
    positivity
  · unfold div255 PyFloat.toRat
    rw [div_le_one (by norm_num)]
    norm_num
    exact_mod_cast h

/-! ## C2: `hex_to_rgb` on a valid `"#RRGGBB"` string -/

/-- C2: for every hex color string `"#RRGGBB"` (six hexadecimal digits
after the `'#'`), `hex_to_rgb` returns the triple
`(R/255, G/255, B/255)` where `R`, `G`, `B` are the base-16 values of the
three digit pairs, and each returned component lies in `[0, 1]`. -/
theorem C2_hex_to_rgb_valid (c1 c2 c3 c4 c5 c6 : Char) (v1 v2 v3 v4 v5 v6 : Nat)
    (h1 : hexDigitVal c1 = some v1) (h2 : hexDigitVal c2 = some v2)
    (h3 : hexDigitVal c3 = some v3) (h4 : hexDigitVal c4 = some v4)
    (h5 : hexDigitVal c5 = some v5) (h6 : hexDigitVal c6 = some v6) :
    hex_to_rgb (String.mk ['#', c1, c2, c3, c4, c5, c6]) =
      some (div255 ((v1 * 16 + v2 : Nat) : Int),
            div255 ((v3 * 16 + v4 : Nat) : Int),
            div255 ((v5 * 16 + v6 : Nat) : Int)) ∧
    (0 ≤ (div255 ((v1 * 16 + v2 : Nat) : Int)).toRat ∧
      (div255 ((v1 * 16 + v2 : Nat) : Int)).toRat ≤ 1) ∧
    (0 ≤ (div255 ((v3 * 16 + v4 : Nat) : Int)).toRat ∧
      (div255 ((v3 * 16 + v4 : Nat) : Int)).toRat ≤ 1) ∧
    (0 ≤ (div255 ((v5 * 16 + v6 : Nat) : Int)).toRat ∧
      (div255 ((v5 * 16 + v6 : Nat) : Int)).toRat ≤ 1) := by
  obtain ⟨hv1, hc1, -, -, -, -, -, -⟩ := hexDigitVal_facts h1
  obtain ⟨hv2, -, -, -, -, -, -, -⟩ := hexDigitVal_facts h2
  obtain ⟨hv3, -, -, -, -, -, -, -⟩ := hexDigitVal_facts h3
  obtain ⟨hv4, -, -, -, -, -, -, -⟩ := hexDigitVal_facts h4
  obtain ⟨hv5, -, -, -, -, -, -, -⟩ := hexDigitVal_facts h5
  obtain ⟨hv6, -, -, -, -, -, -, -⟩ := hexDigitVal_facts h6
  refine ⟨?_, ?_, ?_, ?_⟩
  · show hexToRgbChars ['#', c1, c2, c3, c4, c5, c6] = _
    have hstrip : lstripHash ['#', c1, c2, c3, c4, c5, c6] =
        [c1, c2, c3, c4, c5, c6] := by
      simp [lstripHash, List.dropWhile, hc1]
    unfold hexToRgbChars
    rw [hstrip]
    show (pyIntHex [c1, c2]).bind _ = _
    rw [pyIntHex_pair h1 h2]
    show (pyIntHex [c3, c4]).bind _ = _
    rw [pyIntHex_pair h3 h4]
    show (pyIntHex [c5, c6]).bind _ = _
    rw [pyIntHex_pair h5 h6]
    rfl
  · exact div255_toRat_mem (by omega)
  · exact div255_toRat_mem (by omega)
  · exact div255_toRat_mem (by omega)

/-- Instantiation of C2 at the concrete input `"#0891B2"`. -/
theorem C2_hex_to_rgb_valid_witness :
    hex_to_rgb (String.mk ['#', '0', '8', '9', '1', 'B', '2']) =
      some (div255 ((0 * 16 + 8 : Nat) : Int),
            div255 ((9 * 16 + 1 : Nat) : Int),
            div255 ((11 * 16 + 2 : Nat) : Int)) ∧
    (0 ≤ (div255 ((0 * 16 + 8 : Nat) : Int)).toRat ∧
      (div255 ((0 * 16 + 8 : Nat) : Int)).toRat ≤ 1) ∧
    (0 ≤ (div255 ((9 * 16 + 1 : Nat) : Int)).toRat ∧
      (div255 ((9 * 16 + 1 : Nat) : Int)).toRat ≤ 1) ∧
    (0 ≤ (div255 ((11 * 16 + 2 : Nat) : Int)).toRat ∧
      (div255 ((11 * 16 + 2 : Nat) : Int)).toRat ≤ 1) :=
  C2_hex_to_rgb_valid '0' '8' '9' '1' 'B' '2' 0 8 9 1 11 2
    (by decide) (by decide) (by decide) (by decide) (by decide) (by decide)

/-! ## C10: leading `'#'` characters are immaterial -/

/-- C10: for every string `s`, `hex_to_rgb ("#" ++ s) = hex_to_rgb s`:
prepending a `'#'` does not change the result, because the function
strips all leading `'#'` characters before parsing. -/
theorem C10_hash_invariant (s : String) :
    hex_to_rgb ("#" ++ s) = hex_to_rgb s := by
  show hexToRgbChars ('#' :: s.data) = hexToRgbChars s.data
  unfold hexToRgbChars
  have hstrip : lstripHash ('#' :: s.data) = lstripHash s.data := by
    simp [lstripHash, List.dropWhile]
  rw [hstrip]

/-! ## C6: the two color tables agree -/

/-- C6: both `COLORS` tables have 17 entries, and at every position the
`(light_hex, dark_hex)` pair is identical in the two tables. -/
theorem C6_tables_agree :
    COLORS_gen.length = 17 ∧ COLORS_cc.length = 17 ∧
      COLORS_gen.map (fun e => (e.2.1, e.2.2)) =
        COLORS_cc.map (fun e => (e.2.1, e.2.2)) := by
  decide

/-! ## C5: the two scripts build the same JSON -/

/-- C5: for every pair of valid `"#RRGGBB"` strings, the dictionary
returned by `create_color_json` in `generate_color_assets.py` equals the
`data` dictionary built in the loop body of `create_colors.py`. -/
theorem C5_builders_agree (light dark : String)
    (_hl : validHexStr light = true) (_hd : validHexStr dark = true) :
    create_color_json light dark = createColorsData light dark := rfl

/-- Instantiation of C5 at the concrete pair `("#0891B2", "#06B6D4")`. -/
theorem C5_builders_agree_witness :
    create_color_json "#0891B2" "#06B6D4" =
      createColorsData "#0891B2" "#06B6D4" :=
  C5_builders_agree "#0891B2" "#06B6D4" (by decide) (by decide)

/-! ## C8: the alpha component is the constant `"1.000"` -/

mutual

/-- Every value stored under an `"alpha"` key anywhere in a JSON value,
in document order. -/
def alphaValues : Json → List Json
  | Json.str _ => []
  | Json.num _ => []
  | Json.arr js => alphaValuesArr js
  | Json.obj kvs => alphaValuesObj kvs

def alphaValuesArr : List Json → List Json
  | [] => []
  | j :: rest => alphaValues j ++ alphaValuesArr rest

def alphaValuesObj : List (String × Json) → List Json
  | [] => []
  | (k, v) :: rest =>
    (if k = "alpha" then [v] else []) ++ alphaValues v ++ alphaValuesObj rest

end

/-- C8: in every generated color asset the `"alpha"` component is the
constant string `"1.000"` for both the light-mode and the dark-mode
entry, regardless of the input hex values: whenever either script's JSON
builder returns a value, the values stored under `"alpha"` keys are
exactly `[Json.str "1.000", Json.str "1.000"]`. -/
theorem C8_alpha_constant (light dark : String) (j : Json) :
    (create_color_json light dark = some j →
      alphaValues j = [Json.str "1.000", Json.str "1.000"]) ∧
    (createColorsData light dark = some j →
      alphaValues j = [Json.str "1.000", Json.str "1.000"]) := by
  constructor <;>
  · intro h
    rcases hL : hex_to_rgb light with - | ⟨lr, lg, lb⟩ <;>
      rcases hD : hex_to_rgb dark with - | ⟨dr, dg, db⟩ <;>
      simp [create_color_json, createColorsData, hL, hD] at h
    subst h
    simp [alphaValues, alphaValuesArr, alphaValuesObj]

/-- Instantiation of C8 at the concrete pair `("#000000", "#FFFFFF")`. -/
theorem C8_alpha_constant_witness :
    alphaValues (Json.obj [
      ("colors", Json.arr [
        Json.obj [
          ("color", Json.obj [
            ("color-space", Json.str "srgb"),
            ("components", Json.obj [
              ("alpha", Json.str "1.000"),
              ("blue", Json.str "0.000"),
              ("green", Json.str "0.000"),
              ("red", Json.str "0.000")])]),
          ("idiom", Json.str "universal")],
        Json.obj [
          ("appearances", Json.arr [
            Json.obj [
              ("appearance", Json.str "luminosity"),
              ("value", Json.str "dark")]]),
          ("color", Json.obj [
            ("color-space", Json.str "srgb"),
            ("components", Json.obj [
              ("alpha", Json.str "1.000"),
              ("blue", Json.str "1.000"),
              ("green", Json.str "1.000"),
              ("red", Json.str "1.000")])]),
          ("idiom", Json.str "universal")]]),
      ("info", Json.obj [
        ("author", Json.str "xcode"),
        ("version", Json.num 1)])]) =
      [Json.str "1.000", Json.str "1.000"] :=
  (C8_alpha_constant "#000000" "#FFFFFF" _).1 rfl

/-! ## C9: where `hex_to_rgb` succeeds and where it raises

The claim "on any input whose stripped form is shorter than six
characters ... it raises ValueError" is false: a stripped form of length
five succeeds, because the slice `h[4:6]` then holds a single character
and `int` accepts a single hex digit.  A non-hex character among the
first six need not raise either: `int("+1", 16)` is `1`. -/

/-- C9 fails on the code: `"12345"` has a stripped form shorter than six
characters, and `"+1+1+1"` has a non-hex character among its first six
stripped characters, yet `hex_to_rgb` returns a triple on both. -/
theorem C9_counterexample :
    ((lstripHash ("12345").data).length < 6 ∧
      hex_to_rgb ("12345") = some (div255 18, div255 52, div255 5)) ∧
    ((lstripHash ("+1+1+1").data).length = 6 ∧
      (((lstripHash ("+1+1+1").data).take 6).all
        (fun c => (hexDigitVal c).isSome)) = false ∧
      hex_to_rgb ("+1+1+1") = some (div255 1, div255 1, div255 1)) := by
  decide

/-- C9 as amended: `hex_to_rgb` raises `ValueError` on every input whose
stripped form is shorter than five characters (the slice `h[4:6]` is then
empty, and `int("", 16)` raises); on inputs whose stripped form is
exactly five hexadecimal digits it succeeds, parsing the third component
from the single digit `h[4:5]`; inputs whose first six stripped
characters are hexadecimal digits succeed as C2 states; a non-hex
character among the first six raises only when the affected
two-character slice is not itself acceptable to `int(_, 16)`. -/
theorem C9_amended_hex_to_rgb :
    (∀ s : String, (lstripHash s.data).length ≤ 4 → hex_to_rgb s = none) ∧
    (∀ c1 c2 c3 c4 c5 : Char, ∀ v1 v2 v3 v4 v5 : Nat,
      hexDigitVal c1 = some v1 → hexDigitVal c2 = some v2 →
      hexDigitVal c3 = some v3 → hexDigitVal c4 = some v4 →
      hexDigitVal c5 = some v5 →
      hex_to_rgb (String.mk [c1, c2, c3, c4, c5]) =
        some (div255 ((v1 * 16 + v2 : Nat) : Int),
              div255 ((v3 * 16 + v4 : Nat) : Int),
              div255 ((v5 : Nat) : Int))) := by
  constructor
  · intro s h
    show hexToRgbChars s.data = none
    have h3 : pySlice (lstripHash s.data) 4 6 = [] := by
      unfold pySlice
      rw [List.take_of_length_le (by omega), List.drop_eq_nil_of_le (by omega)]
    have h0 : pyIntHex ([] : List Char) = none := rfl
    simp only [hexToRgbChars, h3, h0]
    cases pyIntHex (pySlice (lstripHash s.data) 0 2) <;>
      cases pyIntHex (pySlice (lstripHash s.data) 2 4) <;>
      simp
  · intro c1 c2 c3 c4 c5 v1 v2 v3 v4 v5 h1 h2 h3 h4 h5
    obtain ⟨-, hc1, -, -, -, -, -, -⟩ := hexDigitVal_facts h1
    show hexToRgbChars [c1, c2, c3, c4, c5] = _
    have hstrip : lstripHash [c1, c2, c3, c4, c5] = [c1, c2, c3, c4, c5] := by
      simp [lstripHash, List.dropWhile, hc1]
    unfold hexToRgbChars
    rw [hstrip]
    show (pyIntHex [c1, c2]).bind _ = _
    rw [pyIntHex_pair h1 h2]
    show (pyIntHex [c3, c4]).bind _ = _
    rw [pyIntHex_pair h3 h4]
    show (pyIntHex [c5]).bind _ = _
    rw [pyIntHex_single h5]
    rfl

/-- Instantiation of C9 as amended: a three-character input raises, a
five-hex-digit input succeeds. -/
theorem C9_amended_hex_to_rgb_witness :
    hex_to_rgb ("abc") = none ∧
    hex_to_rgb (String.mk ['1', '2', '3', '4', '5']) =
      some (div255 ((1 * 16 + 2 : Nat) : Int),
            div255 ((3 * 16 + 4 : Nat) : Int),
            div255 ((5 : Nat) : Int)) :=
  ⟨C9_amended_hex_to_rgb.1 ("abc") (by decide),
   C9_amended_hex_to_rgb.2 '1' '2' '3' '4' '5' 1 2 3 4 5
     (by decide) (by decide) (by decide) (by decide) (by decide)⟩

/-! ## C1: the generated `Contents.json` has exactly the fixed schema -/

/-- The value of a run of decimal digit characters. -/
def decVal (cs : List Char) : Nat :=
  cs.foldl (fun acc c => acc * 10 + (c.toNat - 48)) 0

/-- `s` is a decimal string with exactly three decimal places rendering
the 0-1 scale value `x`: one or more digits, a point, exactly three
digits, and the written number is `x` to within half a unit in the last
place (`|value − x| ≤ 1/2000`; for the values these scripts produce the
rounding is never a tie, so this pins the correctly rounded string). -/
def rendersThreeDecimalsOf (s : String) (x : PyFloat) : Bool :=
  let ip := s.data.takeWhile (fun c => c ≠ '.')
  let rest := s.data.dropWhile (fun c => c ≠ '.')
  match rest with
  | '.' :: fp =>
    !ip.isEmpty && ip.all Char.isDigit && (fp.length == 3) && fp.all Char.isDigit &&
      decide ((2 * (((decVal ip * 1000 + decVal fp : Nat) : Int) * (x.den : Int) -
        1000 * x.num)).natAbs ≤ x.den)
  | _ => false

/-- The `"color"` object: srgb color space and components `alpha` (the
constant `"1.000"`), `blue`, `green`, `red`, each a three-decimal
rendering of the matching component of `x = (r, g, b)`. -/
def colorObjCheck (c : Json) (x : PyFloat × PyFloat × PyFloat) : Bool :=
  match c with
  | Json.obj [("color-space", Json.str cs),
      ("components", Json.obj [("alpha", Json.str al), ("blue", Json.str bl),
        ("green", Json.str gr), ("red", Json.str rd)])] =>
    (cs == "srgb") && (al == "1.000") && rendersThreeDecimalsOf rd x.1 &&
      rendersThreeDecimalsOf gr x.2.1 && rendersThreeDecimalsOf bl x.2.2
  | _ => false

/-- The first `"colors"` element: a universal-idiom srgb color with no
appearances, carrying the light-mode components. -/
def lightEntryCheck (e : Json) (x : PyFloat × PyFloat × PyFloat) : Bool :=
  match e with
  | Json.obj [("color", c), ("idiom", Json.str idm)] =>
    colorObjCheck c x && (idm == "universal")
  | _ => false

/-- The second `"colors"` element: the same shape plus
`"appearances": [{"appearance": "luminosity", "value": "dark"}]`,
carrying the dark-mode components. -/
def darkEntryCheck (e : Json) (x : PyFloat × PyFloat × PyFloat) : Bool :=
  match e with
  | Json.obj [("appearances", Json.arr [Json.obj [("appearance", Json.str ap),
      ("value", Json.str dv)]]), ("color", c), ("idiom", Json.str idm)] =>
    (ap == "luminosity") && (dv == "dark") && colorObjCheck c x &&
      (idm == "universal")
  | _ => false

/-- The full fixed schema of C1: a `"colors"` list of exactly two
elements as above and `"info"` equal to
`{"author": "xcode", "version": 1}`. -/
def contentsSchemaCheck (j : Json) (lx dx : PyFloat × PyFloat × PyFloat) : Bool :=
  match j with
  | Json.obj [("colors", Json.arr [e1, e2]),
      ("info", Json.obj [("author", Json.str au), ("version", Json.num ver)])] =>
    lightEntryCheck e1 lx && darkEntryCheck e2 dx && (au == "xcode") && (ver == 1)
  | _ => false

/-- A table entry generates a JSON value and that value meets the fixed
schema for the entry's light- and dark-mode components. -/
def colorEntryOK (builder : String → String → Option Json)
    (e : String × String × String) : Bool :=
  match hex_to_rgb e.2.1, hex_to_rgb e.2.2, builder e.2.1 e.2.2 with
  | some lx, some dx, some j => contentsSchemaCheck j lx dx
  | _, _, _ => false

/-- C1: for every entry of the `COLORS` tables, the generated
`Contents.json` structure has exactly the fixed schema — a two-element
`"colors"` list (universal srgb light entry without appearances, then the
dark-appearance entry), each component a three-decimal rendering of the
0-1 scale value, and `"info" = {"author": "xcode", "version": 1}`. -/
theorem C1_fixed_schema :
    (COLORS_gen.all (colorEntryOK create_color_json) &&
      COLORS_cc.all (colorEntryOK createColorsData)) = true := by
  decide

/-! ## Loop specifications for the two runs -/

/-- The two filesystem events one table entry causes: create the
colorset directory, write its `Contents.json`. -/
def entryEvents (e : String × String × String) : List FsEvent :=
  [FsEvent.mkdir (colorsetDir e.1), FsEvent.write (contentsFile e.1)]

theorem genLoop_spec (entries : List (String × String × String)) :
    ∀ fs out count,
    entries.all (fun e => (create_color_json e.2.1 e.2.2).isSome) = true →
    ∃ fs' : FS,
      genLoop entries fs out count =
        some (fs', out ++ entries.map (fun e => "   Creating " ++ e.1 ++ "..."),
          count + entries.length) ∧
      fs'.log = fs.log ++ entries.flatMap entryEvents := by
  induction entries with
  | nil =>
    intro fs out count _
    exact ⟨fs, by simp [genLoop], by simp⟩
  | cons e rest ih =>
    intro fs out count hall
    obtain ⟨name, light, dark⟩ := e
    simp only [List.all_cons, Bool.and_eq_true] at hall
    obtain ⟨hhead, htail⟩ := hall
    obtain ⟨j, hj⟩ := Option.isSome_iff_exists.mp hhead
    obtain ⟨fs', hrun, hlog⟩ :=
      ih ((fs.mkdirEO (colorsetDir name)).writeFile (contentsFile name) j)
        (out ++ ["   Creating " ++ name ++ "..."]) (count + 1) htail
    refine ⟨fs', ?_, ?_⟩
    · have hlen : count + 1 + rest.length = count + (rest.length + 1) := by omega
      simp only [genLoop, hj, hrun, List.append_assoc, List.cons_append,
        List.nil_append, List.map_cons, List.length_cons, hlen]
    · rw [hlog]
      simp [FS.writeFile, FS.mkdirEO, entryEvents, List.append_assoc]

theorem ccLoop_spec (entries : List (String × String × String)) :
    ∀ fs out,
    entries.all (fun e => (createColorsData e.2.1 e.2.2).isSome) = true →
    ∃ fs' : FS,
      ccLoop entries fs out =
        some (fs', out ++ entries.map (fun e => "   ✓ " ++ e.1)) ∧
      fs'.log = fs.log ++ entries.flatMap entryEvents := by
  induction entries with
  | nil =>
    intro fs out _
    exact ⟨fs, by simp [ccLoop], by simp⟩
  | cons e rest ih =>
    intro fs out hall
    obtain ⟨name, light, dark⟩ := e
    simp only [List.all_cons, Bool.and_eq_true] at hall
    obtain ⟨hhead, htail⟩ := hall
    obtain ⟨j, hj⟩ := Option.isSome_iff_exists.mp hhead
    obtain ⟨fs', hrun, hlog⟩ :=
      ih ((fs.mkdirEO (colorsetDir name)).writeFile (contentsFile name) j)
        (out ++ ["   ✓ " ++ name]) htail
    refine ⟨fs', ?_, ?_⟩
    · simp only [ccLoop, hj, hrun, List.append_assoc, List.cons_append,
        List.nil_append, List.map_cons]
    · rw [hlog]
      simp [FS.writeFile, FS.mkdirEO, entryEvents, List.append_assoc]

/-- Every entry of the generate-script table builds its JSON without
raising. -/
theorem gen_all_isSome :
    COLORS_gen.all (fun e => (create_color_json e.2.1 e.2.2).isSome) = true := by
  decide

/-- Every entry of the create-colors table builds its JSON without
raising. -/
theorem cc_all_isSome :
    COLORS_cc.all (fun e => (createColorsData e.2.1 e.2.2).isSome) = true := by
  decide

/-! ## C3: the existence check is the only failure condition -/

/-- C3: each script fails (exit status 1) exactly when
`GutCheck/Assets.xcassets` does not exist; on that path the filesystem is
untouched (no colorset directory, no `Contents.json`), and when the
directory exists the run completes with exit status 0. -/
theorem C3_exists_check_only_failure (fs : FS) :
    (∃ res, runGenerate fs = some res ∧
      (res.exitCode = 1 ↔ fs.pathExists assetsPath = false) ∧
      (fs.pathExists assetsPath = false → res.fs = fs) ∧
      (fs.pathExists assetsPath = true → res.exitCode = 0)) ∧
    (∃ res, runCreateColors fs = some res ∧
      (res.exitCode = 1 ↔ fs.pathExists assetsPath = false) ∧
      (fs.pathExists assetsPath = false → res.fs = fs) ∧
      (fs.pathExists assetsPath = true → res.exitCode = 0)) := by
  by_cases hp : fs.pathExists assetsPath = true
  · obtain ⟨fs1, hrun1, -⟩ := genLoop_spec COLORS_gen fs
      (["🎨 GutCheck Color Assets Generator (Python)", sep50, ""] ++
        ["✅ Found Assets.xcassets at: " ++ assetsPathStr, ""]) 0 gen_all_isSome
    obtain ⟨fs2, hrun2, -⟩ := ccLoop_spec COLORS_cc fs
      ["🎨 Creating GutCheck color assets..."] cc_all_isSome
    constructor
    · refine ⟨_, by simp only [runGenerate, if_pos hp, hrun1]; exact rfl, ?_, ?_, ?_⟩ <;>
        simp [hp]
    · refine ⟨_, by simp only [runCreateColors, if_pos hp, hrun2]; exact rfl, ?_, ?_, ?_⟩ <;>
        simp [hp]
  · have hp' : fs.pathExists assetsPath = false := by
      simpa using hp
    constructor
    · refine ⟨_, by simp only [runGenerate, if_neg hp]; exact rfl, ?_, ?_, ?_⟩ <;>
        simp [hp']
    · refine ⟨_, by simp only [runCreateColors, if_neg hp]; exact rfl, ?_, ?_, ?_⟩ <;>
        simp [hp']

/-- A filesystem where `GutCheck/Assets.xcassets` exists and nothing else
does. -/
def fsWithAssets : FS := ⟨[assetsPath], [], []⟩

/-- The empty filesystem: `GutCheck/Assets.xcassets` is missing. -/
def fsEmpty : FS := ⟨[], [], []⟩

/-- Instantiation of C3: with the assets directory present the generate
script exits 0; on the empty filesystem both scripts exit 1 and leave the
filesystem untouched. -/
theorem C3_exists_check_only_failure_witness :
    (∃ res, runGenerate fsWithAssets = some res ∧ res.exitCode = 0) ∧
    (∃ res, runGenerate fsEmpty = some res ∧ res.exitCode = 1 ∧ res.fs = fsEmpty) ∧
    (∃ res, runCreateColors fsEmpty = some res ∧ res.exitCode = 1 ∧
      res.fs = fsEmpty) := by
  refine ⟨?_, ?_, ?_⟩
  · obtain ⟨⟨res, he, -, -, h0⟩, -⟩ := C3_exists_check_only_failure fsWithAssets
    exact ⟨res, he, h0 (by decide)⟩
  · obtain ⟨⟨res, he, hiff, himp, -⟩, -⟩ := C3_exists_check_only_failure fsEmpty
    exact ⟨res, he, hiff.mpr (by decide), himp (by decide)⟩
  · obtain ⟨-, res, he, hiff, himp, -⟩ := C3_exists_check_only_failure fsEmpty
    exact ⟨res, he, hiff.mpr (by decide), himp (by decide)⟩

/-! ## C4: one `Contents.json` per table entry, 17 in all -/

/-- The paths written by a list of filesystem events, in order. -/
def writesOf (l : List FsEvent) : List Path :=
  l.filterMap (fun ev => match ev with
    | FsEvent.write p => some p
    | FsEvent.mkdir _ => none)

/-- C4: when the assets directory exists, each script writes exactly one
`Contents.json` per table entry, in
`GutCheck/Assets.xcassets/<name>.colorset`; the writes are 17 pairwise
distinct paths, and the success message reports exactly that count. -/
theorem C4_one_file_per_entry (fs : FS)
    (hp : fs.pathExists assetsPath = true) :
    (∃ res, runGenerate fs = some res ∧
      res.fs.log = fs.log ++ COLORS_gen.flatMap entryEvents ∧
      writesOf (COLORS_gen.flatMap entryEvents) =
        COLORS_gen.map (fun e => contentsFile e.1) ∧
      (COLORS_gen.map (fun e => contentsFile e.1)).Nodup ∧
      COLORS_gen.length = 17 ∧
      ("✅ Successfully created 17 color assets!") ∈ res.output) ∧
    (∃ res, runCreateColors fs = some res ∧
      res.fs.log = fs.log ++ COLORS_cc.flatMap entryEvents ∧
      writesOf (COLORS_cc.flatMap entryEvents) =
        COLORS_cc.map (fun e => contentsFile e.1) ∧
      (COLORS_cc.map (fun e => contentsFile e.1)).Nodup ∧
      COLORS_cc.length = 17 ∧
      ("\n✅ Created 17 color assets!") ∈ res.output) := by
  obtain ⟨fs1, hrun1, hlog1⟩ := genLoop_spec COLORS_gen fs
    (["🎨 GutCheck Color Assets Generator (Python)", sep50, ""] ++
      ["✅ Found Assets.xcassets at: " ++ assetsPathStr, ""]) 0 gen_all_isSome
  obtain ⟨fs2, hrun2, hlog2⟩ := ccLoop_spec COLORS_cc fs
    ["🎨 Creating GutCheck color assets..."] cc_all_isSome
  constructor
  · refine ⟨_, by simp only [runGenerate, if_pos hp, hrun1]; exact rfl, hlog1,
      by decide, by decide, by decide, ?_⟩
    simp only [RunResult.mk.injEq, List.mem_append]
    exact Or.inl (Or.inl (Or.inr (by decide)))
  · refine ⟨_, by simp only [runCreateColors, if_pos hp, hrun2]; exact rfl, hlog2,
      by decide, by decide, by decide, ?_⟩
    simp only [RunResult.mk.injEq, List.mem_append]
    exact Or.inr (by decide)

/-- Instantiation of C4 on the filesystem holding just the assets
directory. -/
theorem C4_one_file_per_entry_witness :
    (∃ res, runGenerate fsWithAssets = some res ∧
      ("✅ Successfully created 17 color assets!") ∈ res.output) ∧
    (∃ res, runCreateColors fsWithAssets = some res ∧
      ("\n✅ Created 17 color assets!") ∈ res.output) := by
  obtain ⟨⟨res1, he1, -, -, -, -, hm1⟩, res2, he2, -, -, -, -, hm2⟩ :=
    C4_one_file_per_entry fsWithAssets (by decide)
  exact ⟨⟨res1, he1, hm1⟩, res2, he2, hm2⟩

/-! ## C7: every filesystem effect stays inside `Assets.xcassets` -/

/-- The path a filesystem event touches. -/
def eventPath : FsEvent → Path
  | FsEvent.mkdir p => p
  | FsEvent.write p => p

/-- The event is one the claim allows: a mkdir of `<name>.colorset` or a
write of its `Contents.json`, for a `name` of the color table. -/
def eventAllowed (names : List String) (ev : FsEvent) : Bool :=
  match ev with
  | FsEvent.mkdir p => names.any (fun n => p == colorsetDir n)
  | FsEvent.write p => names.any (fun n => p == contentsFile n)

/-- C7: every filesystem write either script performs is confined to
`GutCheck/Assets.xcassets`: the only directories created are
`<name>.colorset` subdirectories for names of the color table, the only
files written are their `Contents.json` files, and every touched path
extends `assetsPath`. -/
theorem C7_writes_confined (fs : FS) :
    (∃ res, ∃ events, runGenerate fs = some res ∧
      res.fs.log = fs.log ++ events ∧
      events.all (fun ev => eventAllowed (COLORS_gen.map (fun e => e.1)) ev &&
        ((eventPath ev).take 2 == assetsPath)) = true) ∧
    (∃ res, ∃ events, runCreateColors fs = some res ∧
      res.fs.log = fs.log ++ events ∧
      events.all (fun ev => eventAllowed (COLORS_cc.map (fun e => e.1)) ev &&
        ((eventPath ev).take 2 == assetsPath)) = true) := by
  by_cases hp : fs.pathExists assetsPath = true
  · obtain ⟨fs1, hrun1, hlog1⟩ := genLoop_spec COLORS_gen fs
      (["🎨 GutCheck Color Assets Generator (Python)", sep50, ""] ++
        ["✅ Found Assets.xcassets at: " ++ assetsPathStr, ""]) 0 gen_all_isSome
    obtain ⟨fs2, hrun2, hlog2⟩ := ccLoop_spec COLORS_cc fs
      ["🎨 Creating GutCheck color assets..."] cc_all_isSome
    constructor
    · exact ⟨_, COLORS_gen.flatMap entryEvents,
        by simp only [runGenerate, if_pos hp, hrun1]; exact rfl, hlog1, by decide⟩
    · exact ⟨_, COLORS_cc.flatMap entryEvents,
        by simp only [runCreateColors, if_pos hp, hrun2]; exact rfl, hlog2, by decide⟩
  · constructor
    · exact ⟨_, [], by simp only [runGenerate, if_neg hp]; exact rfl, by simp, by decide⟩
    · exact ⟨_, [], by simp only [runCreateColors, if_neg hp]; exact rfl, by simp, by decide⟩

/-- Instantiation of C7 on the filesystem holding just the assets
directory. -/
theorem C7_writes_confined_witness :
    ∃ res, ∃ events, runCreateColors fsWithAssets = some res ∧
      res.fs.log = fsWithAssets.log ++ events ∧
      events.all (fun ev => eventAllowed (COLORS_cc.map (fun e => e.1)) ev &&
        ((eventPath ev).take 2 == assetsPath)) = true :=
  (C7_writes_confined fsWithAssets).2

end GutCheck
